import Mathlib

/-!
# Verification of the ONDC staging/merge ETL pipelines

Shallow embedding of the two pipeline scripts
`src/ATP_Logistics_Stage_pipeline.py` and `src/ATP_Order_Stage_pipeline.py`:

* the list-level semantics of the fixed SQL statements they issue against the
  warehouse (`delete_rows` / `insert_rows` delete-then-insert reconciliation,
  `insert_update` upsert reconciliation);
* the chunked extraction loop (`fetch_and_insert_data`), including the pandas
  `chunksize` partitioning of the result set;
* the control flow of the error handling (`insert_data_batch`,
  `DatabaseHandler.execute_sql_psycopg2`, the `run` orchestration methods and
  the order pipeline's CLI entry point `main`), with each fallible external
  operation represented by an explicit may-fail flag.
-/

/-! ## Logistics delete-then-insert reconciliation

`logistics_incremental.master_log` / `logistics_incremental.inc_log` rows.
The natural key used by the `DELETE ... USING` join is the column tuple
(`bpp_id`, `order_id`, `transaction_id`, `order_created_at`); the remaining
25 columns of the fixed column list (`bap_id`, `fulfillment_status`,
`cod_order`, `"date"`, `cancellation_code`, `latest_order_status`,
`retail_order_id`, `pick_up_pincode`, `delivery_pincode`, `retail_category`,
`shipment_type`, `motorable_distance`, `provider_name`, `pickup_tat`,
`rts_tat`, `f_ready_to_ship_at_date`, `f_at_pickup_from_date`,
`f_agent_assigned_at_date`, `delivered_date`, `cancelled_date`, `picked_date`,
`drop_row`, `row_updated`, `promised_time_to_deliver`, `fulfillment_type`)
are not examined by either reconciliation statement, so they are carried
opaquely, in column order, in `otherCols`. -/

structure LogRow where
  bpp_id : String
  order_id : String
  transaction_id : String
  order_created_at : String
  otherCols : List String
deriving DecidableEq, Repr

/-- The `WHERE` conjunction of the logistics `DELETE` statement:
`target.bpp_id = stage.bpp_id AND target.order_id = stage.order_id AND
target.transaction_id = stage.transaction_id AND
target.order_created_at = stage.order_created_at`. -/
def logKeyMatch (t s : LogRow) : Bool :=
  t.bpp_id == s.bpp_id && t.order_id == s.order_id &&
  t.transaction_id == s.transaction_id && t.order_created_at == s.order_created_at

/-- `ATP_Logistics_Stage_data_pipeline.delete_rows`:
`DELETE FROM logistics_incremental.master_log target USING
logistics_incremental.inc_log stage WHERE <logKeyMatch>;` — a target row is
deleted exactly when some staged row matches its natural key. -/
def delete_rows (target stage : List LogRow) : List LogRow :=
  target.filter (fun t => !(stage.any (fun s => logKeyMatch t s)))

/-- `ATP_Logistics_Stage_data_pipeline.insert_rows`:
`INSERT INTO logistics_incremental.master_log (<all 29 columns>)
SELECT <the same 29 columns> FROM logistics_incremental.inc_log stage;` —
every staged row is appended to the target. -/
def insert_rows (target stage : List LogRow) : List LogRow :=
  target ++ stage

theorem logKeyMatch_self (t : LogRow) : logKeyMatch t t = true := by
  simp [logKeyMatch]

/-- **C1** Delete-then-insert reconciliation replaces matched rows exactly:
with the target pre-populated with the single row `r1` of natural key K1 and
the staging table holding exactly the row `r2` with the same key, running
`delete_rows` then `insert_rows` leaves the target equal to `[r2]` — exactly
one row for K1, carrying `r2`'s values, with no duplicate. -/
theorem delete_insert_replaces_matched_row (r1 r2 : LogRow)
    (h : logKeyMatch r1 r2 = true) :
    insert_rows (delete_rows [r1] [r2]) [r2] = [r2] ∧
    ((insert_rows (delete_rows [r1] [r2]) [r2]).filter
        (fun t => logKeyMatch t r2)).length = 1 := by
  constructor
  · simp [delete_rows, insert_rows, h]
  · simp [delete_rows, insert_rows, h, logKeyMatch_self]

theorem delete_insert_replaces_matched_row_witness :
    insert_rows
        (delete_rows [⟨"bpp", "ord", "txn", "2024-01-01T00:00:00", ["V1"]⟩]
          [⟨"bpp", "ord", "txn", "2024-01-01T00:00:00", ["V2"]⟩])
        [⟨"bpp", "ord", "txn", "2024-01-01T00:00:00", ["V2"]⟩] =
      [⟨"bpp", "ord", "txn", "2024-01-01T00:00:00", ["V2"]⟩] :=
  (delete_insert_replaces_matched_row
    ⟨"bpp", "ord", "txn", "2024-01-01T00:00:00", ["V1"]⟩
    ⟨"bpp", "ord", "txn", "2024-01-01T00:00:00", ["V2"]⟩ (by decide)).1

/-- **C2** Delete-then-insert reconciliation never touches unmatched target
rows: a target row `t` whose natural key matches no staged row is still
present after `delete_rows` + `insert_rows`, with its multiplicity in the
target unchanged. -/
theorem delete_insert_frame (target stage : List LogRow) (t : LogRow)
    (ht : t ∈ target) (hkey : ∀ s ∈ stage, logKeyMatch t s = false) :
    t ∈ insert_rows (delete_rows target stage) stage ∧
    (insert_rows (delete_rows target stage) stage).count t = target.count t := by
  have hp : (!(stage.any (fun s => logKeyMatch t s))) = true := by
    simp only [Bool.not_eq_true', List.any_eq_false]
    intro s hs
    simpa using hkey s hs
  have htstage : t ∉ stage := by
    intro hmem
    have := hkey t hmem
    simp [logKeyMatch_self] at this
  constructor
  · exact List.mem_append_left _ (List.mem_filter.mpr ⟨ht, hp⟩)
  · rw [insert_rows, List.count_append,
      List.count_eq_zero.mpr htstage, Nat.add_zero, delete_rows]
    exact List.count_filter hp

theorem delete_insert_frame_witness :
    (⟨"bppD", "ordD", "txnD", "tsD", ["D"]⟩ : LogRow) ∈
      insert_rows
        (delete_rows
          [⟨"bppA", "ordA", "txnA", "tsA", ["Aold"]⟩,
           ⟨"bppD", "ordD", "txnD", "tsD", ["D"]⟩]
          [⟨"bppA", "ordA", "txnA", "tsA", ["Anew"]⟩,
           ⟨"bppB", "ordB", "txnB", "tsB", ["B"]⟩,
           ⟨"bppC", "ordC", "txnC", "tsC", ["C"]⟩])
        [⟨"bppA", "ordA", "txnA", "tsA", ["Anew"]⟩,
         ⟨"bppB", "ordB", "txnB", "tsB", ["B"]⟩,
         ⟨"bppC", "ordC", "txnC", "tsC", ["C"]⟩] :=
  (delete_insert_frame _ _ _ (by decide) (by decide)).1

/-- **C7** Reconciliation with an empty staging table is a no-op on the
target: `delete_rows` deletes nothing (the empty `USING` set joins to
nothing) and `insert_rows` inserts nothing, so the target is unchanged. -/
theorem delete_insert_empty_stage_noop (target : List LogRow) :
    delete_rows target [] = target ∧
    insert_rows (delete_rows target []) [] = target := by
  constructor <;> simp [delete_rows, insert_rows]

/-! ## Order upsert reconciliation

`local_internal.order_level` / `local_internal.stage_order_level` rows.
The upsert's conflict target is the expression index
`lower("Seller NP" || "Network order id" || "Provider Id" || network_transaction_id)`.
The remaining 22 columns of the fixed `INSERT` column list (`"Buyer NP"`,
`"Seller Name"`, `"Seller Pincode"`, `"Delivery Pincode"`,
`cancellation_code`, `"Created at"`, `"Date"`, `"domain"`, `"on-time-del"`,
`"Shipped at"`, `"Ready to Ship"`, `"Promised time"`, `tat_dif`,
`tat_diff_days`, `day_diff`, `min_diff`, `tat_time`, `no_key`,
`"ONDC order_status"`, `"Updated at"`, `"Category"`,
`"Consolidated_category"`) are carried opaquely, in column order, in
`otherCols`. -/

structure OrderRow where
  sellerNP : String
  networkOrderId : String
  providerId : String
  networkTransactionId : String
  otherCols : List String
deriving DecidableEq, Repr

/-- SQL `lower()`: character-wise case folding of a string. -/
def sqlLower (s : String) : String :=
  ⟨s.data.map Char.toLower⟩

/-- The conflict-target expression of the upsert:
`lower("Seller NP" || "Network order id" || "Provider Id" || network_transaction_id)`
(`||` is SQL string concatenation, `lower` folds case). -/
def conflictKey (r : OrderRow) : String :=
  sqlLower (r.sellerNP ++ r.networkOrderId ++ r.providerId ++ r.networkTransactionId)

/-- The `DO UPDATE SET` clause of `insert_update`, applied to the existing
target row `t` with the excluded (staged) row `s`: every column of the
`INSERT` column list is set to the `EXCLUDED` value **except**
`"Network order id"`, which is absent from the `SET` list and therefore keeps
the target row's value. -/
def applyOnConflict (t s : OrderRow) : OrderRow :=
  { sellerNP := s.sellerNP, networkOrderId := t.networkOrderId,
    providerId := s.providerId, networkTransactionId := s.networkTransactionId,
    otherCols := s.otherCols }

/-- One source row of the `INSERT ... SELECT ... ON CONFLICT ... DO UPDATE`:
if some target row's conflict key equals the staged row's, that row is
updated in place via `applyOnConflict`; otherwise the staged row is
appended. -/
def upsertRow (target : List OrderRow) (s : OrderRow) : List OrderRow :=
  if target.any (fun t => conflictKey t == conflictKey s) then
    target.map (fun t =>
      if conflictKey t == conflictKey s then applyOnConflict t s else t)
  else
    target ++ [s]

/-- `ATP_Order_Stage_data_pipeline.insert_update`: the upsert statement,
processing the staged rows in order. (Faithful for staging batches whose
rows do not conflict pairwise; PostgreSQL rejects a statement that would
update the same target row twice.) -/
def insert_update (target stage : List OrderRow) : List OrderRow :=
  stage.foldl upsertRow target

theorem conflictKey_beq_self (r : OrderRow) :
    (conflictKey r == conflictKey r) = true := by
  simp

/-- **C3, counterexample** The claim as stated fails on the code: with the
target empty, stage row `s1 = ⟨"n", "pord", "p", "t", ["v1"]⟩` and then
`s2 = ⟨"np", "ord", "p", "t", ["v2"]⟩` — both of conflict key `"npordpt"` —
the second `insert_update` run does **not** leave the staged row `s2` in the
target (the `SET` list omits `"Network order id"`, so the matched row keeps
`"pord"`), and the row count for key `"npordpt"` after both runs is 0,
not 1. -/
theorem insert_update_staged_values_do_not_win :
    insert_update (insert_update [] [⟨"n", "pord", "p", "t", ["v1"]⟩])
        [⟨"np", "ord", "p", "t", ["v2"]⟩] ≠
      [⟨"np", "ord", "p", "t", ["v2"]⟩] ∧
    insert_update (insert_update [] [⟨"n", "pord", "p", "t", ["v1"]⟩])
        [⟨"np", "ord", "p", "t", ["v2"]⟩] =
      [⟨"np", "pord", "p", "t", ["v2"]⟩] ∧
    ((insert_update (insert_update [] [⟨"n", "pord", "p", "t", ["v1"]⟩])
          [⟨"np", "ord", "p", "t", ["v2"]⟩]).filter
        (fun r => conflictKey r == conflictKey ⟨"np", "ord", "p", "t", ["v2"]⟩)).length
      = 0 := by
  refine ⟨by decide, by decide, by decide⟩

/-- **C3, amended** `insert_update` is an insert-or-replace keyed on
`lower("Seller NP" || "Network order id" || "Provider Id" || network_transaction_id)`,
except that on conflict the `DO UPDATE SET` list omits `"Network order id"`:
a staged row with an absent key is inserted; a staged row colliding with an
existing row updates it in place to the staged values on every column but
`"Network order id"`, which keeps the existing row's value. In particular,
when the staged row's `"Network order id"` equals the matched row's, the row
becomes exactly the staged row and the target's row count for the key is 1
after both runs. -/
theorem insert_update_upsert (target : List OrderRow) (s1 s2 : OrderRow)
    (habs : ∀ t ∈ target, (conflictKey t == conflictKey s1) = false)
    (hkey : conflictKey s1 = conflictKey s2) :
    insert_update target [s1] = target ++ [s1] ∧
    insert_update (insert_update target [s1]) [s2] =
      target ++ [applyOnConflict s1 s2] ∧
    (s1.networkOrderId = s2.networkOrderId →
      insert_update (insert_update target [s1]) [s2] = target ++ [s2] ∧
      ((insert_update (insert_update target [s1]) [s2]).filter
          (fun r => conflictKey r == conflictKey s2)).length = 1) := by
  have habs2 : ∀ t ∈ target, (conflictKey t == conflictKey s2) = false := by
    intro t htmem
    rw [← hkey]
    exact habs t htmem
  have hany1 : target.any (fun t => conflictKey t == conflictKey s1) = false := by
    rw [List.any_eq_false]
    intro t htmem
    simp [habs t htmem]
  have hfirst : insert_update target [s1] = target ++ [s1] := by
    simp [insert_update, upsertRow, hany1]
  have hbeq : (conflictKey s1 == conflictKey s2) = true := beq_iff_eq.mpr hkey
  have hany2 : (target ++ [s1]).any (fun t => conflictKey t == conflictKey s2)
      = true := by
    rw [List.any_append]
    simp [hbeq]
  have hmapfix : target.map (fun t =>
      if conflictKey t == conflictKey s2 then applyOnConflict t s2 else t)
      = target := by
    conv_rhs => rw [← List.map_id target]
    apply List.map_congr_left
    intro t htmem
    simp [habs2 t htmem]
  have hsecond : insert_update (insert_update target [s1]) [s2] =
      target ++ [applyOnConflict s1 s2] := by
    rw [hfirst]
    simp only [insert_update, List.foldl_cons, List.foldl_nil, upsertRow,
      hany2, if_true]
    rw [List.map_append, hmapfix, List.map_cons, List.map_nil, if_pos hbeq]
  refine ⟨hfirst, hsecond, ?_⟩
  intro hid
  have hmerge : applyOnConflict s1 s2 = s2 := by
    unfold applyOnConflict
    rw [hid]
  rw [hsecond, hmerge]
  refine ⟨rfl, ?_⟩
  rw [List.filter_append]
  have : target.filter (fun r => conflictKey r == conflictKey s2) = [] := by
    rw [List.filter_eq_nil_iff]
    intro t htmem
    simp [habs2 t htmem]
  rw [this]
  simp

theorem insert_update_upsert_witness :
    insert_update [⟨"other", "x", "y", "z", ["w"]⟩]
        [⟨"np", "ord", "p", "t", ["v1"]⟩] =
      [⟨"other", "x", "y", "z", ["w"]⟩, ⟨"np", "ord", "p", "t", ["v1"]⟩] ∧
    insert_update
        (insert_update [⟨"other", "x", "y", "z", ["w"]⟩]
          [⟨"np", "ord", "p", "t", ["v1"]⟩])
        [⟨"np", "ord", "p", "t", ["v2"]⟩] =
      [⟨"other", "x", "y", "z", ["w"]⟩, ⟨"np", "ord", "p", "t", ["v2"]⟩] :=
  have h := insert_update_upsert [⟨"other", "x", "y", "z", ["w"]⟩]
    ⟨"np", "ord", "p", "t", ["v1"]⟩ ⟨"np", "ord", "p", "t", ["v2"]⟩
    (by decide) (by decide)
  ⟨h.1, (h.2.2 rfl).1⟩

/-! ## Chunked extraction

Both `fetch_and_insert_data` implementations iterate
`for chunk in pd.read_sql_query(query, conn, chunksize=chunksize)` and hand
each chunk to `insert_data_batch` in turn (`chunksize` defaults to 50000).
The pandas chunked iterator yields the query's result rows in order, in
successive batches of `chunksize` rows, the last batch possibly shorter;
`chunksOf` is that partition. -/

/-- Fuel-indexed chunk splitter; the fuel is an upper bound on the number of
chunks (one chunk consumes at least one row whenever `0 < n`). -/
def chunksOfFuel {α : Type} (n : Nat) : Nat → List α → List (List α)
  | _, [] => []
  | 0, _ :: _ => []
  | fuel + 1, x :: xs => (x :: xs).take n :: chunksOfFuel n fuel ((x :: xs).drop n)

/-- The batch sequence produced by the Extractor for a result set `l` and a
chunk size `n`: successive batches of `n` rows, in result order, the last
batch possibly shorter. -/
def chunksOf {α : Type} (n : Nat) (l : List α) : List (List α) :=
  chunksOfFuel n l.length l

theorem chunksOfFuel_join {α : Type} (n : Nat) (hn : 0 < n) :
    ∀ (fuel : Nat) (l : List α), l.length ≤ fuel →
      (chunksOfFuel n fuel l).flatten = l := by
  intro fuel
  induction fuel with
  | zero =>
    intro l hl
    rw [Nat.le_zero, List.length_eq_zero] at hl
    subst hl
    rfl
  | succ fuel ih =>
    intro l hl
    match l with
    | [] => rfl
    | x :: xs =>
      rw [chunksOfFuel, List.flatten_cons, ih ((x :: xs).drop n) ?_,
        List.take_append_drop]
      rw [List.length_drop]
      simp only [List.length_cons] at hl ⊢
      omega

theorem chunksOfFuel_length_le {α : Type} (n : Nat) :
    ∀ (fuel : Nat) (l : List α) (b : List α),
      b ∈ chunksOfFuel n fuel l → b.length ≤ n := by
  intro fuel
  induction fuel with
  | zero =>
    intro l b hb
    match l with
    | [] => simp [chunksOfFuel] at hb
    | _ :: _ => simp [chunksOfFuel] at hb
  | succ fuel ih =>
    intro l b hb
    match l with
    | [] => simp [chunksOfFuel] at hb
    | x :: xs =>
      rw [chunksOfFuel, List.mem_cons] at hb
      rcases hb with hb | hb
      · subst hb
        rw [List.length_take]
        exact Nat.min_le_left _ _
      · exact ih _ _ hb

/-- **C4** For every extraction result and every positive `chunksize`, the
Extractor's batches each hold at most `chunksize` rows, and their
concatenation in staging order is exactly the full result set — no row is
dropped or duplicated across a batch boundary. -/
theorem chunksOf_partition {α : Type} (rows : List α) (chunksize : Nat)
    (hn : 0 < chunksize) :
    (∀ b ∈ chunksOf chunksize rows, b.length ≤ chunksize) ∧
    (chunksOf chunksize rows).flatten = rows := by
  constructor
  · intro b hb
    exact chunksOfFuel_length_le chunksize rows.length rows b hb
  · exact chunksOfFuel_join chunksize hn rows.length rows (Nat.le_refl _)

theorem chunksOf_partition_witness :
    (∀ b ∈ chunksOf 2 [10, 20, 30, 40, 50], b.length ≤ 2) ∧
    (chunksOf 2 [10, 20, 30, 40, 50]).flatten = [10, 20, 30, 40, 50] :=
  chunksOf_partition [10, 20, 30, 40, 50] 2 (by decide)

/-! ## Error-handling control flow

Each fallible external operation (opening a connection, obtaining a cursor,
executing SQL, the bulk `COPY` load) is represented by a Bool flag saying
whether it raises at this call site; the embedded functions compute which
statements then run — what is committed, rolled back, logged, and whether an
exception propagates to the caller. -/

/-- Failure profile of one `execute_sql_psycopg2` call: whether
`psycopg2.connect` raises, and whether the cursor/`execute`/`commit` part
raises after the connection is established. -/
structure SqlEnv where
  connectFails : Bool
  execFails : Bool
deriving DecidableEq, Repr

structure SqlResult where
  committed : Bool
  rolledBack : Bool
  errorLogged : Bool
  raised : Bool
deriving DecidableEq, Repr

/-- `DatabaseHandler.execute_sql_psycopg2` (order pipeline; the logistics
pipeline's `self.db_handler` comes from a utility module outside this tree
and, matching the spec's "raw-query execution paths which do propagate", is
modelled by this same function): `conn = None; cursor = None` are
pre-initialized, then connect / cursor / execute / commit run in a `try`;
on any exception the error is logged, the transaction is rolled back when a
connection exists, and the exception is re-raised (`raise e`); the `finally`
block closes cursor and connection. -/
def execute_sql_psycopg2 (e : SqlEnv) : SqlResult :=
  if e.connectFails then
    { committed := false, rolledBack := false, errorLogged := true, raised := true }
  else if e.execFails then
    { committed := false, rolledBack := true, errorLogged := true, raised := true }
  else
    { committed := true, rolledBack := false, errorLogged := false, raised := false }

/-- Failure profile of one `insert_data_batch` call: whether
`psycopg2.connect` raises, whether `connpost.cursor()` raises, and whether
the CSV serialization / `copy_expert` / `commit` part raises. -/
structure BatchEnv where
  connectFails : Bool
  cursorFails : Bool
  loadFails : Bool
deriving DecidableEq, Repr

structure BatchResult where
  committed : Bool
  rolledBack : Bool
  errorLogged : Bool
  escapes : Bool
deriving DecidableEq, Repr

/-- `insert_data_batch` (identical in both pipelines). Unlike
`execute_sql_psycopg2`, the locals `connpost` and `cursor` are **not**
pre-initialized before the `try` block, so Python's scoping rules make the
guards themselves raise when an early statement failed:

* `connect` raises → the `except` block logs the error, then its guard
  `if connpost:` raises `UnboundLocalError` (`connpost` was never assigned);
  no rollback happens and the new exception propagates out of
  `insert_data_batch` (the `finally` block's `if cursor:` raises the same
  way).
* `cursor()` raises → the `except` block logs and rolls back (`connpost` is
  assigned), but the `finally` block's `if cursor:` raises
  `UnboundLocalError`, which propagates out.
* the load (`to_csv` / `copy_expert` / `commit`) raises → logged, rolled
  back, both locals closed in `finally`, and the call returns normally.
* no failure → the chunk is committed and the call returns normally. -/
def insert_data_batch (e : BatchEnv) : BatchResult :=
  if e.connectFails then
    { committed := false, rolledBack := false, errorLogged := true, escapes := true }
  else if e.cursorFails then
    { committed := false, rolledBack := true, errorLogged := true, escapes := true }
  else if e.loadFails then
    { committed := false, rolledBack := true, errorLogged := true, escapes := false }
  else
    { committed := true, rolledBack := false, errorLogged := false, escapes := false }

/-- The `for chunk in ...: self.insert_data_batch(chunk)` loop body of
`fetch_and_insert_data`: batches are staged in order until one call lets an
exception escape, which the loop's enclosing `try` catches — ending the
loop, so later batches are never staged. -/
def stageBatches : List BatchEnv → List BatchResult
  | [] => []
  | b :: rest =>
    let r := insert_data_batch b
    if r.escapes then [r] else r :: stageBatches rest

/-- Failure profile of one `fetch_and_insert_data` call: whether the source
query itself (`pd.read_sql_query` over the Athena connection) raises, and
the failure profiles of the per-batch loads. -/
structure ExtractEnv where
  queryFails : Bool
  batches : List BatchEnv
deriving DecidableEq, Repr

structure FetchOutcome where
  processed : List BatchResult
  outerErrorLogged : Bool
  raised : Bool
deriving DecidableEq, Repr

/-- `fetch_and_insert_data` (both pipelines): the whole chunk loop sits in a
`try` whose `except Exception` logs `"Error during fetch and insert"` and
swallows the error, so the method never raises to its caller. -/
def fetch_and_insert_data (e : ExtractEnv) : FetchOutcome :=
  if e.queryFails then
    { processed := [], outerErrorLogged := true, raised := false }
  else
    { processed := stageBatches e.batches,
      outerErrorLogged := (stageBatches e.batches).any (fun r => r.escapes),
      raised := false }

/-- Failure profile of one logistics `run`: the `TRUNCATE`, the extraction,
and the two reconciliation statements (each issued through
`execute_sql_psycopg2`). -/
structure LogisticsRunEnv where
  truncSql : SqlEnv
  extract : ExtractEnv
  deleteSql : SqlEnv
  insertSql : SqlEnv
deriving DecidableEq, Repr

structure LogisticsTrace where
  truncateRan : Bool
  fetch : Option FetchOutcome
  deleteRan : Bool
  deleteErrorLogged : Bool
  insertRan : Bool
  insertErrorLogged : Bool
  outerErrorLogged : Bool
  raised : Bool
deriving DecidableEq, Repr

/-- `ATP_Logistics_Stage_data_pipeline.run`: TRUNCATE, then
`fetch_and_insert_data`, then `delete_rows`, then `insert_rows`, all inside
one `try` whose `except Exception` logs and swallows. The TRUNCATE goes
through `execute_sql_psycopg2`, which re-raises on failure, so a TRUNCATE
failure skips every later step; `fetch_and_insert_data`, `delete_rows` and
`insert_rows` each catch their own exceptions (logging
`"Error Logistics rows deleted"` / `"Error Logistics rows insert"`), so they
always return normally and each subsequent step still runs. -/
def ATP_Logistics_run (env : LogisticsRunEnv) : LogisticsTrace :=
  if (execute_sql_psycopg2 env.truncSql).raised then
    { truncateRan := true, fetch := none,
      deleteRan := false, deleteErrorLogged := false,
      insertRan := false, insertErrorLogged := false,
      outerErrorLogged := true, raised := false }
  else
    { truncateRan := true, fetch := some (fetch_and_insert_data env.extract),
      deleteRan := true,
      deleteErrorLogged := (execute_sql_psycopg2 env.deleteSql).raised,
      insertRan := true,
      insertErrorLogged := (execute_sql_psycopg2 env.insertSql).raised,
      outerErrorLogged := false, raised := false }

/-- Failure profile of one order `run`: the `TRUNCATE`, the extraction, and
the upsert statement. -/
structure OrderRunEnv where
  truncSql : SqlEnv
  extract : ExtractEnv
  upsertSql : SqlEnv
deriving DecidableEq, Repr

structure OrderTrace where
  dateUsed : String
  truncateRan : Bool
  fetch : Option FetchOutcome
  upsertRan : Bool
  upsertErrorLogged : Bool
  outerErrorLogged : Bool
  raised : Bool
deriving DecidableEq, Repr

/-- `ATP_Order_Stage_data_pipeline.run`: resolves `target_date` (falling back
to the current date when `None`), then TRUNCATE, `fetch_and_insert_data`
(with that date) and `insert_update`, all inside one `try` whose
`except Exception` logs and swallows. The TRUNCATE goes through
`execute_sql_psycopg2`, which re-raises, so its failure skips the later
steps; `fetch_and_insert_data` and `insert_update` catch their own
exceptions (`insert_update` logs `"Error during Update and Insert"`), so
`run` itself always returns normally. -/
def ATP_Order_run (env : OrderRunEnv) (targetDate : Option String)
    (today : String) : OrderTrace :=
  let date := targetDate.getD today
  if (execute_sql_psycopg2 env.truncSql).raised then
    { dateUsed := date, truncateRan := true, fetch := none,
      upsertRan := false, upsertErrorLogged := false,
      outerErrorLogged := true, raised := false }
  else
    { dateUsed := date, truncateRan := true,
      fetch := some (fetch_and_insert_data env.extract),
      upsertRan := true,
      upsertErrorLogged := (execute_sql_psycopg2 env.upsertSql).raised,
      outerErrorLogged := false, raised := false }

structure MainResult where
  exitCode : Nat
  runTrace : Option OrderTrace
  reRaised : Bool
deriving DecidableEq, Repr

/-- `main` of the order pipeline. `argvTail` is `sys.argv[1:]`; `strptimeOk`
models `datetime.strptime(arg, "%Y-%m-%d")` succeeding. With an argument
present, the date is validated first: on `ValueError` the error is logged
and `sys.exit(1)` ends the process before any pipeline step. Otherwise the
pipeline is constructed and `run` invoked inside a `try` whose
`except Exception` logs and re-raises, making the process exit non-zero
exactly when `run` raises. -/
def ATP_Order_main (argvTail : List String) (strptimeOk : String → Bool)
    (env : OrderRunEnv) (today : String) : MainResult :=
  let runWith (d : Option String) : MainResult :=
    let tr := ATP_Order_run env d today
    if tr.raised then { exitCode := 1, runTrace := some tr, reRaised := true }
    else { exitCode := 0, runTrace := some tr, reRaised := false }
  match argvTail with
  | [] => runWith none
  | d :: _ =>
    if strptimeOk d then runWith (some d)
    else { exitCode := 1, runTrace := none, reRaised := false }

/-- **C5** evaluated at a failing input. The claim says every batch-load
error — including a failure to open the per-batch connection — is rolled
back, logged, and followed by the next batch. In the code, a `connect`
failure makes the `except` block's `if connpost:` guard raise
`UnboundLocalError`, which escapes `insert_data_batch`; the chunk loop's
enclosing `try` then ends the loop, so the following healthy batch is never
staged (and nothing was rolled back). The error is logged and
`fetch_and_insert_data` still returns normally; and a load failure *after*
the connection is established is indeed rolled back, logged, and followed by
the next batch. -/
theorem insert_data_batch_connect_failure_ends_loop :
    insert_data_batch ⟨true, false, false⟩ =
      { committed := false, rolledBack := false, errorLogged := true,
        escapes := true } ∧
    fetch_and_insert_data
        ⟨false, [⟨true, false, false⟩, ⟨false, false, false⟩]⟩ =
      { processed := [⟨false, false, true, true⟩],
        outerErrorLogged := true, raised := false } ∧
    fetch_and_insert_data
        ⟨false, [⟨false, false, true⟩, ⟨false, false, false⟩]⟩ =
      { processed := [⟨false, true, true, false⟩, ⟨true, false, false, false⟩],
        outerErrorLogged := false, raised := false } :=
  ⟨rfl, rfl, rfl⟩

/-- **C6** A failure of the Extract+Stage step does not abort the remaining
orchestration: when the TRUNCATE succeeded and the source query raises
inside `fetch_and_insert_data` (which logs and swallows it), the logistics
`run` still executes `delete_rows` and `insert_rows`, and the order `run`
still executes `insert_update`. -/
theorem run_reconciles_after_extraction_failure
    (lenv : LogisticsRunEnv) (oenv : OrderRunEnv) (d : Option String)
    (today : String)
    (hl : (execute_sql_psycopg2 lenv.truncSql).raised = false)
    (hlq : lenv.extract.queryFails = true)
    (ho : (execute_sql_psycopg2 oenv.truncSql).raised = false)
    (hoq : oenv.extract.queryFails = true) :
    (ATP_Logistics_run lenv).fetch =
      some { processed := [], outerErrorLogged := true, raised := false } ∧
    (ATP_Logistics_run lenv).deleteRan = true ∧
    (ATP_Logistics_run lenv).insertRan = true ∧
    (ATP_Order_run oenv d today).fetch =
      some { processed := [], outerErrorLogged := true, raised := false } ∧
    (ATP_Order_run oenv d today).upsertRan = true := by
  refine ⟨?_, ?_, ?_, ?_, ?_⟩ <;>
    simp [ATP_Logistics_run, ATP_Order_run, fetch_and_insert_data,
      hl, hlq, ho, hoq]

theorem run_reconciles_after_extraction_failure_witness :
    (ATP_Logistics_run
        ⟨⟨false, false⟩, ⟨true, []⟩, ⟨false, false⟩, ⟨false, false⟩⟩).deleteRan
      = true ∧
    (ATP_Logistics_run
        ⟨⟨false, false⟩, ⟨true, []⟩, ⟨false, false⟩, ⟨false, false⟩⟩).insertRan
      = true ∧
    (ATP_Order_run ⟨⟨false, false⟩, ⟨true, []⟩, ⟨false, false⟩⟩
        none "2025-01-01").upsertRan = true :=
  have h := run_reconciles_after_extraction_failure
    ⟨⟨false, false⟩, ⟨true, []⟩, ⟨false, false⟩, ⟨false, false⟩⟩
    ⟨⟨false, false⟩, ⟨true, []⟩, ⟨false, false⟩⟩ none "2025-01-01"
    rfl rfl rfl rfl
  ⟨h.2.1, h.2.2.1, h.2.2.2.2⟩

theorem ATP_Order_run_raised_eq_false (env : OrderRunEnv)
    (d : Option String) (today : String) :
    (ATP_Order_run env d today).raised = false := by
  rw [ATP_Order_run]
  split <;> rfl

theorem ATP_Order_run_dateUsed (env : OrderRunEnv) (d : Option String)
    (today : String) :
    (ATP_Order_run env d today).dateUsed = d.getD today := by
  simp only [ATP_Order_run]
  split <;> rfl

theorem fetch_and_insert_data_raised_eq_false (e : ExtractEnv) :
    (fetch_and_insert_data e).raised = false := by
  rw [fetch_and_insert_data]
  split <;> rfl

/-- **C8** The order pipeline's CLI entry point takes one optional positional
date argument: an argument rejected by `strptime(arg, "%Y-%m-%d")` makes the
process exit with code 1 before any pipeline step runs, and an accepted
argument is passed verbatim to `run` as the target date. -/
theorem order_main_date_validation (strptimeOk : String → Bool)
    (env : OrderRunEnv) (today : String) (d : String) (rest : List String) :
    (strptimeOk d = false →
      ATP_Order_main (d :: rest) strptimeOk env today =
        { exitCode := 1, runTrace := none, reRaised := false }) ∧
    (strptimeOk d = true →
      (ATP_Order_main (d :: rest) strptimeOk env today).exitCode = 0 ∧
      (ATP_Order_main (d :: rest) strptimeOk env today).runTrace =
        some (ATP_Order_run env (some d) today) ∧
      (ATP_Order_run env (some d) today).dateUsed = d) := by
  constructor
  · intro h
    simp [ATP_Order_main, h]
  · intro h
    refine ⟨?_, ?_, ATP_Order_run_dateUsed env (some d) today⟩ <;>
      simp [ATP_Order_main, h, ATP_Order_run_raised_eq_false]

theorem order_main_date_validation_witness :
    ATP_Order_main ["2024-13-99"] (fun s => decide (s = "2024-01-02"))
        ⟨⟨false, false⟩, ⟨false, []⟩, ⟨false, false⟩⟩ "2025-06-01" =
      { exitCode := 1, runTrace := none, reRaised := false } ∧
    (ATP_Order_run ⟨⟨false, false⟩, ⟨false, []⟩, ⟨false, false⟩⟩
        (some "2024-01-02") "2025-06-01").dateUsed = "2024-01-02" :=
  ⟨(order_main_date_validation (fun s => decide (s = "2024-01-02"))
      ⟨⟨false, false⟩, ⟨false, []⟩, ⟨false, false⟩⟩ "2025-06-01"
      "2024-13-99" []).1 (by decide),
   ((order_main_date_validation (fun s => decide (s = "2024-01-02"))
      ⟨⟨false, false⟩, ⟨false, []⟩, ⟨false, false⟩⟩ "2025-06-01"
      "2024-01-02" []).2 (by decide)).2.2⟩

/-- **C9** Every failure inside a pipeline step is logged and swallowed:
`run` catches every step exception and returns normally, so with no (or a
valid) date argument the process exits 0; the `main` wrapper's re-raise is
the only non-zero path from the pipeline body and it fires only when `run`
itself raises — which it never does. -/
theorem order_step_failures_logged_and_swallowed (env : OrderRunEnv)
    (d : Option String) (today : String) (argvTail : List String)
    (strptimeOk : String → Bool) :
    (ATP_Order_run env d today).raised = false ∧
    ((execute_sql_psycopg2 env.truncSql).raised = true →
      (ATP_Order_run env d today).outerErrorLogged = true) ∧
    ((execute_sql_psycopg2 env.truncSql).raised = false →
      (ATP_Order_run env d today).fetch =
          some (fetch_and_insert_data env.extract) ∧
      (fetch_and_insert_data env.extract).raised = false ∧
      (env.extract.queryFails = true →
        (fetch_and_insert_data env.extract).outerErrorLogged = true)) ∧
    ((execute_sql_psycopg2 env.truncSql).raised = false →
      (execute_sql_psycopg2 env.upsertSql).raised = true →
      (ATP_Order_run env d today).upsertErrorLogged = true) ∧
    (ATP_Order_main argvTail strptimeOk env today).reRaised = false ∧
    (ATP_Order_main [] strptimeOk env today).exitCode = 0 := by
  refine ⟨ATP_Order_run_raised_eq_false env d today, ?_, ?_, ?_, ?_, ?_⟩
  · intro h
    simp [ATP_Order_run, h]
  · intro h
    refine ⟨by simp [ATP_Order_run, h],
      fetch_and_insert_data_raised_eq_false env.extract, ?_⟩
    intro hq
    simp [fetch_and_insert_data, hq]
  · intro h hu
    simp [ATP_Order_run, h, hu]
  · cases argvTail with
    | nil => simp [ATP_Order_main, ATP_Order_run_raised_eq_false]
    | cons a rest =>
      by_cases h : strptimeOk a = true <;>
        simp [ATP_Order_main, h, ATP_Order_run_raised_eq_false]
  · simp [ATP_Order_main, ATP_Order_run_raised_eq_false]

theorem order_step_failures_logged_and_swallowed_witness :
    (ATP_Order_run ⟨⟨false, false⟩, ⟨true, []⟩, ⟨false, true⟩⟩
        none "2025-01-01").raised = false ∧
    (ATP_Order_run ⟨⟨false, false⟩, ⟨true, []⟩, ⟨false, true⟩⟩
        none "2025-01-01").upsertErrorLogged = true ∧
    (ATP_Order_main [] (fun s => decide (s = "2024-01-02"))
        ⟨⟨false, false⟩, ⟨true, []⟩, ⟨false, true⟩⟩ "2025-01-01").exitCode
      = 0 :=
  have h := order_step_failures_logged_and_swallowed
    ⟨⟨false, false⟩, ⟨true, []⟩, ⟨false, true⟩⟩ none "2025-01-01" []
    (fun s => decide (s = "2024-01-02"))
  ⟨h.1, h.2.2.2.1 rfl rfl, h.2.2.2.2.2⟩

/-- **C10** A failing initial TRUNCATE aborts the rest of the order run:
`execute_sql_psycopg2` rolls back and re-raises on any SQL error (here: the
connection was established and the execute/commit failed), the exception is
caught only by `run`'s outer handler, and neither `fetch_and_insert_data`
nor `insert_update` executes — while `run` still returns normally. -/
theorem order_truncate_failure_aborts_run (e : SqlEnv) (env : OrderRunEnv)
    (d : Option String) (today : String)
    (hc : e.connectFails = false) (hx : e.execFails = true)
    (ht : (execute_sql_psycopg2 env.truncSql).raised = true) :
    (execute_sql_psycopg2 e).rolledBack = true ∧
    (execute_sql_psycopg2 e).raised = true ∧
    (ATP_Order_run env d today).fetch = none ∧
    (ATP_Order_run env d today).upsertRan = false ∧
    (ATP_Order_run env d today).outerErrorLogged = true ∧
    (ATP_Order_run env d today).raised = false := by
  refine ⟨?_, ?_, ?_, ?_, ?_, ?_⟩
  · simp [execute_sql_psycopg2, hc, hx]
  · simp [execute_sql_psycopg2, hc, hx]
  · simp [ATP_Order_run, ht]
  · simp [ATP_Order_run, ht]
  · simp [ATP_Order_run, ht]
  · simp [ATP_Order_run, ht]

theorem order_truncate_failure_aborts_run_witness :
    (execute_sql_psycopg2 ⟨false, true⟩).rolledBack = true ∧
    (ATP_Order_run ⟨⟨false, true⟩, ⟨false, []⟩, ⟨false, false⟩⟩
        none "2025-01-01").fetch = none ∧
    (ATP_Order_run ⟨⟨false, true⟩, ⟨false, []⟩, ⟨false, false⟩⟩
        none "2025-01-01").upsertRan = false :=
  have h := order_truncate_failure_aborts_run ⟨false, true⟩
    ⟨⟨false, true⟩, ⟨false, []⟩, ⟨false, false⟩⟩ none "2025-01-01"
    rfl rfl rfl
  ⟨h.1, h.2.2.1, h.2.2.2.1⟩
